import Mathlib

/-!
Shallow embedding of `src/URLshortener.py`, a FastAPI URL-shortening service
backed by PostgreSQL via psycopg2, together with proofs about the claims of
its specification.

Modelling conventions:
* Timestamps are `Int` (abstract clock ticks; one day is `86400` ticks).
* The database is a pair of tables (`urls`, `access_logs`) held as lists in
  insertion order; surrogate ids and database-side `NOW()` values, which the
  storage engine assigns, are passed in as explicit parameters.
* `random.choice` over the token alphabet is modelled by an arbitrary index
  source `rand : Nat → Nat`, reduced modulo the alphabet size.
* A psycopg2 driver failure during a handler body is modelled by a
  `fault : Option String` parameter: `some e` means the first statement of the
  `try` block raised `psycopg2.Error` whose text is `e`.
* Each handler returns its HTTP outcome (`Outcome`): either the success body
  or an error status with the `detail` string the handler attaches, matching
  the `HTTPException`s the Python code raises.  FastAPI turns an
  `HTTPException(500)` with no detail into the phrase "Internal Server Error".
-/

/-- Row of the `urls` table: `urls(id, original_url, short_path UNIQUE,
created_at, updated_at, expires_at)`. -/
structure ShortURL where
  id : Nat
  original_url : String
  short_path : String
  created_at : Int
  updated_at : Option Int
  expires_at : Option Int
deriving DecidableEq

/-- Row of the `access_logs` table:
`access_logs(id, url_id REFERENCES urls, accessed_at, ip_address, user_agent)`. -/
structure AccessLog where
  id : Nat
  url_id : Nat
  accessed_at : Int
  ip_address : Option String
  user_agent : Option String
deriving DecidableEq

/-- The whole relational store. -/
structure DB where
  urls : List ShortURL
  access_logs : List AccessLog
deriving DecidableEq

/-- HTTP outcome of a handler: a success body, or an error status code with
the response `detail` string. -/
inductive Outcome (α : Type) where
  | ok : α → Outcome α
  | err : Nat → String → Outcome α
deriving DecidableEq

/-- The token alphabet `string.ascii_lowercase + string.digits` used by
`generate_short_path`. -/
def shortPathChars : List Char :=
  "abcdefghijklmnopqrstuvwxyz0123456789".toList

/-- Embeds `generate_short_path()`: six draws of `random.choice(chars)` joined into a
string; the random source is modelled by `rand`, reduced modulo the alphabet
size. -/
def generate_short_path (rand : Nat → Nat) : String :=
  String.mk ((List.range 6).map
    (fun i => shortPathChars.getD (rand i % shortPathChars.length) 'a'))

/-- Embeds `SELECT ... FROM urls WHERE short_path = %s` followed by `fetchone()`. -/
def findUrl (db : DB) (sp : String) : Option ShortURL :=
  db.urls.find? (fun u => u.short_path == sp)

/-- Text of the psycopg2 `UniqueViolation` raised when an `INSERT` into `urls`
breaks the unique constraint on `short_path`. -/
def uniqueViolationMsg : String :=
  "duplicate key value violates unique constraint \x22urls_short_path_key\x22"

/-- Success body returned by `create_url`. -/
structure CreateBody where
  id : Nat
  short_url : String
  original_url : String
  created_at : Int
  expires_at : Option Int
deriving DecidableEq

/-- Handler `POST /api/urls` (`create_url`).  `race` models the rows a
concurrent transaction commits between this handler's uniqueness pre-check
(`SELECT 1 FROM urls WHERE short_path = %s`) and its `INSERT`: the pre-check
reads `db` alone, while the storage engine enforces the unique constraint
against `db.urls ++ race`.  A sequential run has `race = []`.
`newId` and `dbNow` are the id and `created_at` the storage engine assigns
(`RETURNING id, created_at`); `now` is the handler's `datetime.now()`.
The Python `data.short_path or generate_short_path()` treats an empty string
as falsy, hence the `isEmpty` test.  An `HTTPException(409)` raised by the
pre-check is not a `psycopg2.Error`, so it propagates past the
`except psycopg2.Error` clause untouched; a constraint violation at the
`INSERT` is a `psycopg2.Error` and becomes a 500 whose detail interpolates
the driver text. -/
def create_url (db : DB) (race : List ShortURL) (fault : Option String)
    (original_url : String) (short_path? : Option String)
    (expires_in_days : Option Int) (rand : Nat → Nat) (now : Int)
    (base_url : String) (newId : Nat) (dbNow : Int) :
    DB × Outcome CreateBody :=
  let sp := match short_path? with
    | some s => if s.isEmpty then generate_short_path rand else s
    | none => generate_short_path rand
  let expires_at := expires_in_days.map (fun d => now + d * 86400)
  match fault with
  | some e => (⟨db.urls ++ race, db.access_logs⟩,
      .err 500 ("Erro no banco de dados: " ++ e))
  | none =>
    if db.urls.any (fun u => u.short_path == sp) then
      (⟨db.urls ++ race, db.access_logs⟩,
       .err 409 ("O caminho \x27" ++ sp ++ "\x27 já está em uso"))
    else if (db.urls ++ race).any (fun u => u.short_path == sp) then
      (⟨db.urls ++ race, db.access_logs⟩,
       .err 500 ("Erro no banco de dados: " ++ uniqueViolationMsg))
    else
      (⟨db.urls ++ race ++
          [⟨newId, original_url, sp, dbNow, none, expires_at⟩],
        db.access_logs⟩,
       .ok ⟨newId, base_url ++ "/" ++ sp, original_url, dbNow, expires_at⟩)

/-- Success body returned by `redirect_url`. -/
structure RedirectBody where
  redirect_to : String
deriving DecidableEq

/-- Body of the `try` block of `redirect_url`: locking read of the row, 404 if
absent, 410 if `expires_at` is set and strictly before `datetime.now()`
(`appNow`), otherwise one `INSERT` into `access_logs` with the database clock
`dbNow`, the client address and the user-agent header.  Raised
`HTTPException`s are the `Except.error` branch. -/
def redirect_try (db : DB) (sp : String) (fault : Option String)
    (appNow dbNow : Int) (ip ua : Option String) (logId : Nat) :
    Except (Nat × String) (DB × String) :=
  match fault with
  | some e => .error (500, e)
  | none =>
    match findUrl db sp with
    | none => .error (404, "URL não encontrada")
    | some u =>
      match u.expires_at with
      | some e =>
        if e < appNow then .error (410, "URL expirada")
        else .ok (⟨db.urls, db.access_logs ++ [⟨logId, u.id, dbNow, ip, ua⟩]⟩,
          u.original_url)
      | none => .ok (⟨db.urls, db.access_logs ++ [⟨logId, u.id, dbNow, ip, ua⟩]⟩,
          u.original_url)

/-- Handler `GET /{short_path}` (`redirect_url`).  The `except Exception`
clause catches every exception raised in the `try` block — including the
handler's own `HTTPException(404)` and `HTTPException(410)` — rolls the
transaction back and raises `HTTPException(500)` with a generic detail, so
every failure of the `try` body surfaces as a 500. -/
def redirect_url (db : DB) (sp : String) (fault : Option String)
    (appNow dbNow : Int) (ip ua : Option String) (logId : Nat) :
    DB × Outcome RedirectBody :=
  match redirect_try db sp fault appNow dbNow ip ua logId with
  | .ok (db2, orig) => (db2, .ok ⟨orig⟩)
  | .error _ => (db, .err 500 "Erro interno ao processar o acesso")

/-- Success body returned by `update_url`.  The `updated_at` field is the
handler's own `datetime.now()` (`handlerNow` below), not the value the
database stored via `NOW()`. -/
structure UpdateBody where
  id : Nat
  short_url : String
  original_url : String
  updated_at : Int
deriving DecidableEq

/-- Handler `PUT /api/urls/{short_path}` (`update_url`).  The single `UPDATE`
statement sets `original_url` and `updated_at = NOW()` (`dbNow`) on every row
matching `short_path` and `RETURNING id, original_url` yields the first
updated row (post-update values); if no row matched, the handler raises
`HTTPException(404)`, which propagates (there is no `except` clause) and the
uncommitted transaction is dropped when the connection closes.  The response
body's `updated_at` is `datetime.now()` evaluated in the handler
(`handlerNow`), after the write. -/
def update_url (db : DB) (sp new_url : String) (dbNow handlerNow : Int)
    (base_url : String) : DB × Outcome UpdateBody :=
  match findUrl db sp with
  | none => (db, .err 404 "URL não encontrada")
  | some u =>
    (⟨db.urls.map (fun v =>
        if v.short_path == sp then
          { v with original_url := new_url, updated_at := some dbNow }
        else v),
      db.access_logs⟩,
     .ok ⟨u.id, base_url ++ "/" ++ sp, new_url, handlerNow⟩)

/-- One entry of the `access_logs` array in the stats payload; `accessed_at`
is `isoformat() + "Z"`, modelled as the printed tick count with a `Z`
suffix. -/
structure StatsLogEntry where
  accessed_at : String
  ip_address : Option String
  user_agent : Option String
deriving DecidableEq

/-- Success body returned by `get_stats`. -/
structure StatsBody where
  short_url : String
  original_url : String
  total_accesses : Nat
  accesses_last_30_days : Nat
  access_logs : List StatsLogEntry
deriving DecidableEq

/-- Ordering used by `ORDER BY accessed_at DESC` on `access_logs`. -/
def logGE (a b : AccessLog) : Prop := b.accessed_at ≤ a.accessed_at

instance : DecidableRel logGE := fun a b =>
  inferInstanceAs (Decidable (b.accessed_at ≤ a.accessed_at))

instance : IsTotal AccessLog logGE := ⟨fun a b => le_total b.accessed_at a.accessed_at⟩

instance : IsTrans AccessLog logGE := ⟨fun _ _ _ hab hbc => le_trans hbc hab⟩

/-- Handler `GET /api/urls/{short_path}/stats` (`get_stats`): 404 if the row
is absent (this `HTTPException` is not a `psycopg2.Error`, so it propagates);
otherwise counts of all logs for the url and of those with
`accessed_at >= NOW() - INTERVAL '30 days'`, plus the ten most recent entries
ordered by `accessed_at` descending.  A driver failure is caught and becomes
a 500 whose detail interpolates `str(e)`. -/
def get_stats (db : DB) (sp : String) (fault : Option String) (now : Int)
    (base_url : String) : Outcome StatsBody :=
  match fault with
  | some e => .err 500 ("Erro no banco de dados: " ++ e)
  | none =>
    match findUrl db sp with
    | none => .err 404 "URL não encontrada"
    | some u =>
      let logs := db.access_logs.filter (fun l => l.url_id == u.id)
      .ok ⟨base_url ++ "/" ++ sp, u.original_url, logs.length,
        logs.countP (fun l => now - 30 * 86400 ≤ l.accessed_at),
        ((List.insertionSort logGE logs).take 10).map
          (fun l => ⟨toString l.accessed_at ++ "Z", l.ip_address, l.user_agent⟩)⟩

/-- Handler `DELETE /api/urls/{short_path}` (`delete_url`): 404 if the row is
absent (propagates past `except psycopg2.Error`); otherwise
`DELETE FROM access_logs WHERE url_id = %s` then `DELETE FROM urls WHERE id = %s`
committed as one transaction.  A driver failure is caught, rolled back and
becomes a 500 whose detail interpolates the driver text. -/
def delete_url (db : DB) (sp : String) (fault : Option String) :
    DB × Outcome Unit :=
  match fault with
  | some e => (db, .err 500 ("Erro no banco de dados: " ++ e))
  | none =>
    match findUrl db sp with
    | none => (db, .err 404 "URL não encontrada")
    | some u =>
      (⟨db.urls.filter (fun v => v.id != u.id),
        db.access_logs.filter (fun l => l.url_id != u.id)⟩,
       .ok ())

/-- One element of the `items` array of the list payload. -/
structure ListItem where
  id : Nat
  original_url : String
  short_url : String
  created_at : Int
  expires_at : Option Int
  stats_url : String
deriving DecidableEq

/-- Success body returned by `list_urls` (`PaginatedURLResponse`). -/
structure PaginatedURLResponse where
  total_items : Nat
  page : Nat
  per_page : Nat
  items : List ListItem
deriving DecidableEq

/-- Ordering used by `ORDER BY created_at DESC` on `urls`. -/
def urlGE (a b : ShortURL) : Prop := b.created_at ≤ a.created_at

instance : DecidableRel urlGE := fun a b =>
  inferInstanceAs (Decidable (b.created_at ≤ a.created_at))

instance : IsTotal ShortURL urlGE := ⟨fun a b => le_total b.created_at a.created_at⟩

instance : IsTrans ShortURL urlGE := ⟨fun _ _ _ hab hbc => le_trans hbc hab⟩

/-- The `urls` table in the `created_at`-descending order produced by
`ORDER BY created_at DESC` (modelled by a stable sort, as the engine's order
among equal keys is unspecified but fixed for one statement). -/
def sortedUrls (db : DB) : List ShortURL :=
  List.insertionSort urlGE db.urls

/-- Projection of one `urls` row to a list item, with the absolute short and
stats addresses built from the request's base address. -/
def listItem (base_url : String) (u : ShortURL) : ListItem :=
  ⟨u.id, u.original_url, base_url ++ "/" ++ u.short_path, u.created_at,
   u.expires_at, base_url ++ "/api/urls/" ++ u.short_path ++ "/stats"⟩

/-- Handler `GET /api/urls` (`list_urls`), after FastAPI has validated
`page > 0` and `0 < per_page ≤ 100`: `total_items` is `SELECT COUNT(*)`
over the whole table, and the items are the `created_at`-descending rows
sliced with `LIMIT per_page OFFSET (page-1)*per_page`.  A driver failure
becomes a bare `HTTPException(500)`, whose detail FastAPI fills with the
status phrase. -/
def list_urls (db : DB) (page per_page : Nat) (base_url : String)
    (fault : Option String) : Outcome PaginatedURLResponse :=
  match fault with
  | some _ => .err 500 "Internal Server Error"
  | none =>
    .ok ⟨db.urls.length, page, per_page,
      (((sortedUrls db).drop ((page - 1) * per_page)).take per_page).map
        (listItem base_url)⟩

/-- Items of page `p` of `list_urls`, empty on the error outcome. -/
def pageItems (db : DB) (base_url : String) (per_page p : Nat) : List ListItem :=
  match list_urls db p per_page base_url none with
  | .ok body => body.items
  | .err _ _ => []

/-- An unexpired stored row used in concrete scenarios. -/
def urlA : ShortURL := ⟨1, "https://example.com", "abc123", 100, none, none⟩

/-- A stored row whose `expires_at` (60) lies before the scenario clock
(1000). -/
def urlExp : ShortURL := ⟨2, "https://old.example.com", "old001", 50, none, some 60⟩

/-- Concrete store with one unexpired and one expired row and no logs. -/
def db1 : DB := ⟨[urlA, urlExp], []⟩

/-- Claim C1: the spec says a redirect for an absent `short_path` fails with
`NotFound` (404).  In the code the `HTTPException(404)` raised inside the
`try` block is caught by the blanket `except Exception` and replaced by an
`HTTPException(500)` with the generic detail, so the caller receives 500;
the store (in particular `access_logs`) is unchanged, as claimed. -/
theorem redirect_missing_row_gives_500 :
    redirect_url db1 "missing" none 1000 1000 (some "10.0.0.1") (some "curl") 1 =
      (db1, Outcome.err 500 "Erro interno ao processar o acesso") := by
  decide

/-- Claim C2: the spec says a redirect for an expired row fails with `Gone`
(410).  The `HTTPException(410)` raised inside the `try` block is caught by
the blanket `except Exception` and replaced by a 500 with the generic
detail; `access_logs` is unchanged, as claimed (`urlExp` expired at 60,
the clock reads 1000). -/
theorem redirect_expired_row_gives_500 :
    redirect_url db1 "old001" none 1000 1000 (some "10.0.0.1") (some "curl") 1 =
      (db1, Outcome.err 500 "Erro interno ao processar o acesso") := by
  decide

/-- Claim C3: when the uniqueness pre-check passes but a racing Create has
already inserted the same `short_path`, the storage engine's unique
constraint rejects the `INSERT` with a `psycopg2.Error`, which the handler's
`except psycopg2.Error` clause converts to a 500 whose detail interpolates
the driver text — not to the `Conflict` (409) the spec requires. -/
theorem create_race_gives_500_not_409 :
    create_url db1 [⟨3, "https://b.example.com", "xyz789", 200, none, none⟩]
        none "https://b.example.com" (some "xyz789") none (fun _ => 0) 1000
        "http://sh.example" 4 1001 =
      (⟨db1.urls ++ [⟨3, "https://b.example.com", "xyz789", 200, none, none⟩],
          db1.access_logs⟩,
       Outcome.err 500 ("Erro no banco de dados: " ++ uniqueViolationMsg)) := by
  decide

/-- Claim C5: a redirect on a stored, unexpired row appends exactly one
`AccessLog` row carrying the client address and user-agent header, leaves
`urls` untouched, and returns the stored `original_url` unchanged. -/
theorem redirect_success_logs_once (db : DB) (sp : String) (u : ShortURL)
    (appNow dbNow : Int) (ip ua : Option String) (logId : Nat)
    (hfind : findUrl db sp = some u)
    (hexp : ∀ e, u.expires_at = some e → appNow ≤ e) :
    redirect_url db sp none appNow dbNow ip ua logId =
      (⟨db.urls, db.access_logs ++ [⟨logId, u.id, dbNow, ip, ua⟩]⟩,
       Outcome.ok ⟨u.original_url⟩) := by
  unfold redirect_url redirect_try
  simp only [hfind]
  cases hE : u.expires_at with
  | none => simp only [hE]
  | some e =>
    have hlt : ¬ e < appNow := not_lt.mpr (hexp e hE)
    simp only [hE, if_neg hlt]

/-- Claim C5, witness: redirecting `abc123` in the concrete store `db1`
appends the single expected log row and returns the stored destination. -/
theorem redirect_success_logs_once_witness :
    findUrl db1 "abc123" = some urlA
    ∧ redirect_url db1 "abc123" none 1000 1005 (some "10.0.0.1") (some "curl") 7 =
        (⟨db1.urls, db1.access_logs ++ [⟨7, urlA.id, 1005, some "10.0.0.1", some "curl"⟩]⟩,
         Outcome.ok ⟨urlA.original_url⟩) :=
  ⟨by decide,
   redirect_success_logs_once db1 "abc123" urlA 1000 1005 (some "10.0.0.1")
     (some "curl") 7 (by decide) (fun e h => by simp [urlA] at h)⟩

/-- The token a Create resolves to: the caller-supplied `short_path` when it
is given and non-empty (Python's `or` treats the empty string as falsy),
otherwise the generated token — the `short_path = data.short_path or
generate_short_path()` line of `create_url`. -/
def resolvedShortPath (short_path? : Option String) (rand : Nat → Nat) : String :=
  match short_path? with
  | some s => if s.isEmpty then generate_short_path rand else s
  | none => generate_short_path rand

/-- Concrete store already holding the token the index-identity random
source generates (`abcdef`), for the generated-collision case. -/
def dbGen : DB := ⟨[⟨4, "https://g.example", "abcdef", 5, none, none⟩], []⟩

/-- Claim C6: a Create whose resolved `short_path` — caller-supplied or
generated — is already stored fails at the uniqueness pre-check with
`Conflict` (409) — the `HTTPException(409)` is not a `psycopg2.Error` and
propagates — and the store is returned unchanged: no row is overwritten or
modified. -/
theorem create_conflict_preserves_db (db : DB) (short_path? : Option String)
    (rand : Nat → Nat) (orig : String) (exp : Option Int) (now : Int)
    (base : String) (newId : Nat) (dbNow : Int)
    (hdup : db.urls.any
      (fun u => u.short_path == resolvedShortPath short_path? rand) = true) :
    create_url db [] none orig short_path? exp rand now base newId dbNow =
      (db, Outcome.err 409
        ("O caminho \x27" ++ resolvedShortPath short_path? rand ++ "\x27 já está em uso")) := by
  rcases short_path? with _ | s
  · simp only [resolvedShortPath] at hdup ⊢
    unfold create_url
    simp [hdup]
  · simp only [resolvedShortPath] at hdup ⊢
    unfold create_url
    rcases hE : s.isEmpty with _ | _
    · simp only [hE, Bool.false_eq_true, if_false] at hdup ⊢
      simp [hdup]
    · simp only [hE, if_true] at hdup ⊢
      simp [hdup]

/-- Claim C6, witness: the caller-supplied case (path `abc123` already taken
in `db1`) and the generated case (token `abcdef` already taken in `dbGen`,
`short_path` omitted) both yield the 409 conflict with the store
unchanged. -/
theorem create_conflict_preserves_db_witness :
    ((db1.urls.any
        (fun u => u.short_path == resolvedShortPath (some "abc123") (fun _ => 0)) = true)
     ∧ create_url db1 [] none "https://b.example.com" (some "abc123") none
         (fun _ => 0) 1000 "http://sh.example" 9 1001 =
       (db1, Outcome.err 409
         ("O caminho \x27" ++ resolvedShortPath (some "abc123") (fun _ => 0) ++
           "\x27 já está em uso")))
    ∧ ((dbGen.urls.any
        (fun u => u.short_path == resolvedShortPath none (fun i => i)) = true)
     ∧ create_url dbGen [] none "https://h.example" none none
         (fun i => i) 1000 "http://sh.example" 9 1001 =
       (dbGen, Outcome.err 409
         ("O caminho \x27" ++ resolvedShortPath none (fun i => i) ++
           "\x27 já está em uso"))) :=
  ⟨⟨by decide,
    create_conflict_preserves_db db1 (some "abc123") (fun _ => 0)
      "https://b.example.com" none 1000 "http://sh.example" 9 1001 (by decide)⟩,
   ⟨by decide,
    create_conflict_preserves_db dbGen none (fun i => i)
      "https://h.example" none 1000 "http://sh.example" 9 1001 (by decide)⟩⟩

/-- A log row owned by `urlA` in the delete scenario. -/
def logA1 : AccessLog := ⟨1, 1, 150, some "10.0.0.1", some "curl"⟩

/-- A log row owned by `urlExp` in the delete scenario. -/
def logB1 : AccessLog := ⟨2, 2, 160, some "10.0.0.2", none⟩

/-- Concrete store for the delete scenario: two rows, one log each. -/
def db7 : DB := ⟨[urlA, urlExp], [logA1, logB1]⟩

/-- Claim C7: deleting `abc123` removes its `urls` row and its `access_logs`
row while keeping the other row's data (no orphaned logs), and a subsequent
stats or update on it yields 404 — but a subsequent redirect yields 500, not
the `NotFound` the spec claims, because `redirect_url`'s blanket
`except Exception` swallows its own `HTTPException(404)`. -/
theorem delete_cascades_but_redirect_gives_500 :
    delete_url db7 "abc123" none = (⟨[urlExp], [logB1]⟩, Outcome.ok ())
    ∧ get_stats ⟨[urlExp], [logB1]⟩ "abc123" none 1000 "http://sh.example" =
        Outcome.err 404 "URL não encontrada"
    ∧ update_url ⟨[urlExp], [logB1]⟩ "abc123" "https://new.example.com" 1000 1001
        "http://sh.example" =
        (⟨[urlExp], [logB1]⟩, Outcome.err 404 "URL não encontrada")
    ∧ redirect_url ⟨[urlExp], [logB1]⟩ "abc123" none 1000 1000 none none 9 =
        (⟨[urlExp], [logB1]⟩, Outcome.err 500 "Erro interno ao processar o acesso") := by
  refine ⟨by decide, by decide, by decide, by decide⟩

/-- Concatenating the first `m` chunks of size `k` of a list gives its first
`m * k` elements. -/
theorem join_chunks_take {α : Type} (l : List α) (k : Nat) :
    ∀ m, ((List.range m).map (fun i => (l.drop (i * k)).take k)).flatten = l.take (m * k)
  | 0 => by simp
  | m + 1 => by
    rw [List.range_succ, List.map_append, List.flatten_append, join_chunks_take l k m]
    simp [Nat.succ_mul, List.take_add]

/-- Splitting a list into `⌈length / k⌉` chunks of size `k` and concatenating
them reproduces the list. -/
theorem join_chunks {α : Type} (l : List α) (k : Nat) (hk : 0 < k) :
    ((List.range ((l.length + k - 1) / k)).map
        (fun i => (l.drop (i * k)).take k)).flatten = l := by
  rw [join_chunks_take]
  apply List.take_of_length_le
  rcases Nat.eq_zero_or_pos l.length with h0 | h0
  · simp [h0]
  · have h1 : l.length + k - 1 = (l.length - 1) + k := by omega
    rw [h1, Nat.add_div_right _ hk, Nat.add_mul, one_mul,
      Nat.mul_comm ((l.length - 1) / k) k]
    have hd := Nat.div_add_mod (l.length - 1) k
    have hm : (l.length - 1) % k < k := Nat.mod_lt _ hk
    omega

/-- Claim C8: for `page ≥ 1` and `per_page ∈ [1, 100]`, `list_urls` reports
`total_items` as the full row count whatever the slice is, returns the
`created_at`-descending ordering sliced at offset `(page-1)*per_page` with
limit `per_page`, and concatenating pages `1..⌈total/per_page⌉` reproduces
the whole ordered listing, which is a permutation of the table sorted by
`created_at` descending — so no duplicates and no gaps. -/
theorem list_urls_pagination (db : DB) (base : String) (page k : Nat)
    (hp : 1 ≤ page) (hk : 1 ≤ k) (hk100 : k ≤ 100) :
    list_urls db page k base none =
      Outcome.ok ⟨db.urls.length, page, k,
        (((sortedUrls db).drop ((page - 1) * k)).take k).map (listItem base)⟩
    ∧ ((List.range ((db.urls.length + k - 1) / k)).map
         (fun i => pageItems db base k (i + 1))).flatten
        = (sortedUrls db).map (listItem base)
    ∧ (sortedUrls db).Perm db.urls
    ∧ List.Sorted urlGE (sortedUrls db) := by
  refine ⟨rfl, ?_, List.perm_insertionSort _ _, List.sorted_insertionSort _ _⟩
  have hpi : ∀ i, pageItems db base k (i + 1) =
      (((sortedUrls db).map (listItem base)).drop (i * k)).take k := by
    intro i
    simp [pageItems, list_urls, List.map_take, List.map_drop]
  simp only [hpi]
  have hlen : ((sortedUrls db).map (listItem base)).length = db.urls.length := by
    rw [List.length_map]
    exact (List.perm_insertionSort urlGE db.urls).length_eq
  rw [← hlen]
  exact join_chunks _ k hk

/-- Concrete store for the pagination witness: three rows with distinct
`created_at` values, one of them expired. -/
def dbW : DB := ⟨[⟨1, "https://a.example", "aa1111", 10, none, none⟩,
                  ⟨2, "https://b.example", "bb2222", 30, none, some 5⟩,
                  ⟨3, "https://c.example", "cc3333", 20, none, none⟩], []⟩

/-- Claim C8, witness: page 1 of size 2 over the three-row store `dbW`. -/
theorem list_urls_pagination_witness :
    (1 ≤ (2:Nat)) ∧
    (list_urls dbW 1 2 "http://sh.example" none =
      Outcome.ok ⟨dbW.urls.length, 1, 2,
        (((sortedUrls dbW).drop ((1 - 1) * 2)).take 2).map (listItem "http://sh.example")⟩
    ∧ ((List.range ((dbW.urls.length + 2 - 1) / 2)).map
         (fun i => pageItems dbW "http://sh.example" 2 (i + 1))).flatten
        = (sortedUrls dbW).map (listItem "http://sh.example")
    ∧ (sortedUrls dbW).Perm dbW.urls
    ∧ List.Sorted urlGE (sortedUrls dbW)) :=
  ⟨by decide,
   list_urls_pagination dbW "http://sh.example" 1 2 (by decide) (by decide) (by decide)⟩

/-- The generated token always has exactly six characters. -/
theorem generate_short_path_length (rand : Nat → Nat) :
    (generate_short_path rand).length = 6 := by
  simp [generate_short_path, String.length]

/-- Every character of the generated token is a lowercase letter or a
digit. -/
theorem generate_short_path_chars (rand : Nat → Nat) :
    ∀ c ∈ (generate_short_path rand).toList, (c.isLower || c.isDigit) = true := by
  intro c hc
  have hall : ∀ c ∈ shortPathChars, (c.isLower || c.isDigit) = true := by decide
  apply hall
  simp only [generate_short_path, String.toList, List.mem_map, List.mem_range] at hc
  obtain ⟨i, _, rfl⟩ := hc
  have hlt : rand i % shortPathChars.length < shortPathChars.length :=
    Nat.mod_lt _ (by decide)
  rw [List.getD_eq_getElem _ _ hlt]
  exact List.getElem_mem hlt

/-- Claim C9: a successful Create with `short_path` and `expires_in_days`
both omitted stores a row whose token is the generated six-character
lowercase-alphanumeric string and whose `expires_at` is null, and the
response body reports that token and a null `expires_at`. -/
theorem create_omitted_fields (db : DB) (orig : String) (rand : Nat → Nat)
    (now : Int) (base : String) (newId : Nat) (dbNow : Int) (db' : DB)
    (body : CreateBody)
    (h : create_url db [] none orig none none rand now base newId dbNow =
      (db', Outcome.ok body)) :
    db'.urls = db.urls ++ [⟨newId, orig, generate_short_path rand, dbNow, none, none⟩]
    ∧ body = ⟨newId, base ++ "/" ++ generate_short_path rand, orig, dbNow, none⟩
    ∧ (generate_short_path rand).length = 6
    ∧ ∀ c ∈ (generate_short_path rand).toList, (c.isLower || c.isDigit) = true := by
  unfold create_url at h
  simp only [List.append_nil, Option.map_none'] at h
  rcases hA : (db.urls.any fun u => u.short_path == generate_short_path rand) with _ | _
  · simp only [hA, Bool.false_eq_true, if_false] at h
    injection h with h1 h2
    subst h1
    injection h2 with h2
    subst h2
    exact ⟨rfl, rfl, generate_short_path_length rand, generate_short_path_chars rand⟩
  · simp only [hA, if_true] at h
    injection h with h1 h2
    simp at h2

/-- Claim C9, witness: creating on an empty store with the index-identity
random source assigns the token `abcdef` and a null expiry. -/
theorem create_omitted_fields_witness :
    create_url ⟨[], []⟩ [] none "https://example.com" none none (fun i => i) 0
        "http://sh.example" 1 0 =
      (⟨[⟨1, "https://example.com", "abcdef", 0, none, none⟩], []⟩,
       Outcome.ok ⟨1, "http://sh.example/abcdef", "https://example.com", 0, none⟩)
    ∧ ((⟨[⟨1, "https://example.com", "abcdef", 0, none, none⟩], []⟩ : DB).urls =
        (⟨[], []⟩ : DB).urls ++
          [⟨1, "https://example.com", generate_short_path (fun i => i), 0, none, none⟩]
      ∧ (⟨1, "http://sh.example/abcdef", "https://example.com", 0, none⟩ : CreateBody) =
          ⟨1, "http://sh.example" ++ "/" ++ generate_short_path (fun i => i),
            "https://example.com", 0, none⟩
      ∧ (generate_short_path (fun i => i)).length = 6
      ∧ ∀ c ∈ (generate_short_path (fun i => i)).toList,
          (c.isLower || c.isDigit) = true) :=
  ⟨by decide,
   create_omitted_fields ⟨[], []⟩ "https://example.com" (fun i => i) 0
     "http://sh.example" 1 0
     ⟨[⟨1, "https://example.com", "abcdef", 0, none, none⟩], []⟩
     ⟨1, "http://sh.example/abcdef", "https://example.com", 0, none⟩ (by decide)⟩

/-- Claim C10: on a successful update, the response body's `updated_at` is
the handler clock (`datetime.now()` evaluated after the write), while every
row the `UPDATE` touched stores the database clock (`NOW()`); the two values
are independent inputs, so the reported timestamp can differ from the stored
one. -/
theorem update_response_uses_handler_clock (db : DB) (sp nu : String)
    (u : ShortURL) (dbNow hNow : Int) (base : String)
    (hfind : findUrl db sp = some u) :
    (update_url db sp nu dbNow hNow base).snd =
      Outcome.ok ⟨u.id, base ++ "/" ++ sp, nu, hNow⟩
    ∧ ∀ v ∈ (update_url db sp nu dbNow hNow base).fst.urls,
        v.short_path = sp → v.updated_at = some dbNow := by
  unfold update_url
  simp only [hfind]
  refine ⟨by trivial, ?_⟩
  intro v hv hvsp
  simp only [List.mem_map] at hv
  obtain ⟨w, hw, hwe⟩ := hv
  by_cases hb : (w.short_path == sp) = true
  · rw [if_pos hb] at hwe
    subst hwe
    rfl
  · rw [if_neg hb] at hwe
    subst hwe
    exact absurd (by simp [hvsp]) hb

/-- Claim C10, witness: with database clock 5 and handler clock 7 the
response reports `updated_at = 7` while the stored row holds `some 5`. -/
theorem update_response_uses_handler_clock_witness :
    findUrl db1 "abc123" = some urlA
    ∧ (5:Int) ≠ 7
    ∧ ((update_url db1 "abc123" "https://new.example.com" 5 7 "http://sh.example").snd =
        Outcome.ok ⟨urlA.id, "http://sh.example" ++ "/" ++ "abc123",
          "https://new.example.com", 7⟩
      ∧ ∀ v ∈ (update_url db1 "abc123" "https://new.example.com" 5 7
            "http://sh.example").fst.urls,
          v.short_path = "abc123" → v.updated_at = some 5) :=
  ⟨by decide, by decide,
   update_response_uses_handler_clock db1 "abc123" "https://new.example.com" urlA
     5 7 "http://sh.example" (by decide)⟩
